import Mathlib

/-!
Shallow embedding of the shared HTTP client layer of the
Variant-Analysis-Pipeline repository, `scripts/utils/api_clients.py`,
class `BaseAPIClient` (caching, rate limiting, retry with exponential
backoff), together with theorems settling the specification claims
about it.

Modelling conventions:
* Parsed JSON bodies are the inductive `Json`; Python truthiness of a
  JSON value (used by the `if cached:` test in `get`/`post`) is `pyTruthy`.
* The on-disk cache is an association list from file path to stored
  JSON; a write prepends (shadowing any older entry, as an overwriting
  file write does).
* One network attempt is summarised by an `AttemptResult`: a response
  with a status code and the outcome of parsing its body, or a
  transport-level failure (`requests` raising a `RequestException`).
  The behaviour of the server across attempts is a function
  `Nat → AttemptResult` indexed by the attempt number.
* Observable effects (outbound network attempts, `time.sleep` backoff
  waits) are recorded in an event trace.
* Exceptions are explicit: the model of `get`/`post` returns
  `Except PyExn RunResult`, and the `except requests.exceptions.RequestException`
  clause of the source is modelled by a test on the raised exception
  class.  `response.json()` failing raises
  `requests.exceptions.JSONDecodeError`, a subclass of
  `RequestException` (requests ≥ 2.27), so it is modelled as raising
  `PyExn.requestException`.
* Wall-clock time for the rate limiter is modelled over `ℚ` with an
  explicit clock state; nonnegative drift parameters stand for the
  time that may pass between observations and for `time.sleep`
  overshoot (`sleep(d)` suspends for at least `d`).
-/

/-- A parsed JSON value (the result of `response.json()` / `json.load`). -/
inductive Json where
  | null : Json
  | bool (b : Bool) : Json
  | num (n : Int) : Json
  | str (s : String) : Json
  | arr (xs : List Json) : Json
  | obj (fields : List (String × Json)) : Json

/-- Python truthiness of a parsed JSON value: `None`, `False`, `0`,
the empty string, the empty list and the empty dict are falsy,
everything else is truthy.  Used by the `if cached:` test. -/
def pyTruthy : Json → Bool
  | .null => false
  | .bool b => b
  | .num n => n != 0
  | .str s => !s.isEmpty
  | .arr xs => !xs.isEmpty
  | .obj fs => !fs.isEmpty

/-- A primitive Python value appearing in a query-parameter or body
dict (`str` or `int`, the shapes the repository passes). -/
inductive PyVal where
  | str (s : String) : PyVal
  | int (n : Int) : PyVal
deriving DecidableEq

/-- A Python dict of primitive values, in insertion order (Python
dicts preserve insertion order, and `str(dict)` displays it). -/
def PyDict := List (String × PyVal)

instance : DecidableEq PyDict := by
  unfold PyDict
  infer_instance

/-- Python `repr` of a primitive value as it appears inside
`str(dict)`: strings are quoted with single quotes, ints are printed
in decimal. -/
def pyReprVal : PyVal → String
  | .str s => "\x27" ++ s ++ "\x27"
  | .int n => toString n

/-- Python `str` of a dict: `\x7b'k': v, ...\x7d` in insertion order. -/
def pyStrDict (d : PyDict) : String :=
  "\x7b" ++
    String.intercalate ", "
      (d.map (fun kv => "\x27" ++ kv.1 ++ "\x27: " ++ pyReprVal kv.2)) ++
    "\x7d"

/-- Python `str` of an `Optional[Dict]`: `str(None) = "None"`. -/
def pyStrOptDict : Option PyDict → String
  | none => "None"
  | some d => pyStrDict d

/-- `BaseAPIClient.get`: `cache_key = f"\x7bendpoint\x7d_\x7bstr(params)\x7d"`. -/
def cacheKeyGet (endpoint : String) (params : Option PyDict) : String :=
  endpoint ++ "_" ++ pyStrOptDict params

/-- `BaseAPIClient.post`:
`cache_key = f"post_\x7bendpoint\x7d_\x7bhash(str(data))\x7d_\x7bstr(params)\x7d"`.
The built-in `hash` of a `str` is salted per process
(`PYTHONHASHSEED`), so it is a parameter `pyHash` of the model: each
process run supplies its own hash function. -/
def cacheKeyPost (pyHash : String → Int) (endpoint : String)
    (data : PyDict) (params : Option PyDict) : String :=
  "post_" ++ endpoint ++ "_" ++ toString (pyHash (pyStrDict data)) ++ "_" ++
    pyStrOptDict params

/-- `BaseAPIClient._get_cache_path`: replace `/` and `:` by `_` in the
key (`str.replace` on single characters is a character map), then
`cache_dir / f"\x7bsafe_key\x7d.json"`. -/
def cachePath (cacheDir : String) (cacheKey : String) : String :=
  cacheDir ++ "/" ++
    String.mk (cacheKey.data.map (fun c => if c = '/' ∨ c = ':' then '_' else c)) ++
    ".json"

/-- The on-disk cache: stored JSON indexed by file path. -/
def Cache := List (String × Json)

/-- Look a path up in the cache (first entry wins, as files are unique). -/
def cacheFind : Cache → String → Option Json
  | [], _ => none
  | (p, v) :: rest, path => if p = path then some v else cacheFind rest path

/-- Writing a cache file: the new content shadows any previous one. -/
def cacheStore (c : Cache) (path : String) (v : Json) : Cache :=
  (path, v) :: c

/-- The configuration the client reads from `config.yaml`:
`api.cache_responses`, `api.retry_attempts`, `api.retry_delay`. -/
structure ApiConfig where
  cacheResponses : Bool
  retryAttempts : Nat
  retryDelay : ℚ

/-- `BaseAPIClient._load_from_cache`: `None` when caching is globally
disabled; otherwise read the entry at the cache path if it exists.
`readOk = false` models the read raising (unreadable or corrupt
entry), which the source catches, logs and turns into `None`. -/
def loadFromCache (cfg : ApiConfig) (readOk : Bool) (cacheDir : String)
    (cacheKey : String) (c : Cache) : Option Json :=
  if cfg.cacheResponses then
    match cacheFind c (cachePath cacheDir cacheKey) with
    | some v => if readOk then some v else none
    | none => none
  else none

/-- `BaseAPIClient._save_to_cache`: a no-op when caching is globally
disabled; `writeOk = false` models `open`/`json.dump` raising, which
the source catches, logs and swallows, leaving the cache unchanged. -/
def saveToCache (cfg : ApiConfig) (writeOk : Bool) (cacheDir : String)
    (cacheKey : String) (data : Json) (c : Cache) : Cache :=
  if cfg.cacheResponses then
    if writeOk then cacheStore c (cachePath cacheDir cacheKey) data else c
  else c

/-- What one network attempt produced: either the server responded
(with a status code, and the result of `response.json()` for when the
code is 200), or `session.get`/`session.post` raised a
`requests.exceptions.RequestException` (timeout, connection refused,
DNS failure). -/
inductive AttemptResult where
  | response (code : Nat) (parse : Except Unit Json) : AttemptResult
  | requestExn : AttemptResult

/-- A Python exception class, as coarsely as the `except` clause of the
source distinguishes them. `requests.exceptions.JSONDecodeError`
subclasses `RequestException`, so a body-parse failure raises
`requestException` here. -/
inductive PyExn where
  | requestException : PyExn
  | otherExn : PyExn
deriving DecidableEq

/-- An observable event of a `get`/`post` call: one outbound HTTP
attempt, or one `time.sleep` of the given duration in seconds. -/
inductive Event where
  | netRequest : Event
  | sleepEv (d : ℚ) : Event
deriving DecidableEq

/-- Result of a completed `get`/`post` call: the returned value
(`None` is `none`), the cache afterwards, and the event trace. -/
structure RunResult where
  result : Option Json
  cache : Cache
  trace : List Event

/-- Control flow of the `try:` block of one loop iteration of
`get`/`post`. -/
inductive TryOutcome where
  | ret (v : Option Json) (c : Cache) : TryOutcome
  | sleep429 : TryOutcome
  | raised (e : PyExn) : TryOutcome

/-- The `try:` body of one attempt of `get`/`post` (after the
rate-limit wait): on 200 parse, save to cache and return the body; on
429 sleep and continue; on any other status return `None`; a parse
failure or transport failure raises. -/
def tryBody (cfg : ApiConfig) (writeOk : Bool) (cacheDir : String)
    (cacheKey : String) (c : Cache) : AttemptResult → TryOutcome
  | .response code parse =>
    if code = 200 then
      match parse with
      | .ok body => .ret (some body) (saveToCache cfg writeOk cacheDir cacheKey body c)
      | .error _ => .raised .requestException
    else if code = 429 then .sleep429
    else .ret none c
  | .requestExn => .raised .requestException

/-- The retry loop of `get`/`post`: `for attempt in range(retry_attempts)`.
`attempt` is the current index, the second argument the number of
iterations left.  On 429 the code sleeps `retry_delay * 2 ** attempt`
unconditionally; on a caught `RequestException` it sleeps the same
amount only when `attempt < retry_attempts - 1`.  Falling off the loop
returns `None`.  An exception whose class is not
`RequestException` would propagate (`.error`). -/
def requestLoop (cfg : ApiConfig) (writeOk : Bool) (cacheDir : String)
    (outcomes : Nat → AttemptResult) (cacheKey : String) :
    Nat → Nat → Cache → Except PyExn RunResult
  | _, 0, c => .ok ⟨none, c, []⟩
  | attempt, r + 1, c =>
    match tryBody cfg writeOk cacheDir cacheKey c (outcomes attempt) with
    | .ret v c2 => .ok ⟨v, c2, [.netRequest]⟩
    | .sleep429 =>
      (requestLoop cfg writeOk cacheDir outcomes cacheKey (attempt + 1) r c).map
        (fun res => ⟨res.result, res.cache,
          .netRequest :: .sleepEv (cfg.retryDelay * 2 ^ attempt) :: res.trace⟩)
    | .raised e =>
      if e = PyExn.requestException then
        if attempt < cfg.retryAttempts - 1 then
          (requestLoop cfg writeOk cacheDir outcomes cacheKey (attempt + 1) r c).map
            (fun res => ⟨res.result, res.cache,
              .netRequest :: .sleepEv (cfg.retryDelay * 2 ^ attempt) :: res.trace⟩)
        else
          (requestLoop cfg writeOk cacheDir outcomes cacheKey (attempt + 1) r c).map
            (fun res => ⟨res.result, res.cache, .netRequest :: res.trace⟩)
      else .error e

/-- `BaseAPIClient.get`: compute the cache key; when `use_cache`, load
from the cache and return the stored value if it is truthy
(`if cached: return cached`); otherwise run the retry loop. -/
def getModel (cfg : ApiConfig) (writeOk readOk : Bool) (cacheDir : String)
    (outcomes : Nat → AttemptResult) (endpoint : String)
    (params : Option PyDict) (useCache : Bool) (c : Cache) :
    Except PyExn RunResult :=
  let key := cacheKeyGet endpoint params
  let run := requestLoop cfg writeOk cacheDir outcomes key 0 cfg.retryAttempts c
  if useCache then
    match loadFromCache cfg readOk cacheDir key c with
    | some v => if pyTruthy v then .ok ⟨some v, c, []⟩ else run
    | none => run
  else run

/-- `BaseAPIClient.post`: identical to `get` except for the cache key,
which hashes the request body with the process-salted built-in `hash`. -/
def postModel (cfg : ApiConfig) (writeOk readOk : Bool) (cacheDir : String)
    (pyHash : String → Int) (outcomes : Nat → AttemptResult)
    (endpoint : String) (data : PyDict) (params : Option PyDict)
    (useCache : Bool) (c : Cache) : Except PyExn RunResult :=
  let key := cacheKeyPost pyHash endpoint data params
  let run := requestLoop cfg writeOk cacheDir outcomes key 0 cfg.retryAttempts c
  if useCache then
    match loadFromCache cfg readOk cacheDir key c with
    | some v => if pyTruthy v then .ok ⟨some v, c, []⟩ else run
    | none => run
  else run

/-- The durations of the backoff sleeps of a trace, in order. -/
def sleepsOf (tr : List Event) : List ℚ :=
  tr.filterMap (fun e => match e with | .sleepEv d => some d | _ => none)

/-- How many outbound network attempts a trace contains. -/
def requestsOf (tr : List Event) : Nat :=
  tr.countP (fun e => match e with | .netRequest => true | _ => false)

/-- The expected event trace of a run of the retry loop in which every
attempt fails at transport level: one outbound attempt per iteration,
and after every attempt but the last (`attempt < retry_attempts - 1`)
a backoff sleep of `retry_delay * 2 ** attempt`. -/
def transportTrace (n : Nat) (d : ℚ) : Nat → Nat → List Event
  | _, 0 => []
  | attempt, r + 1 =>
    if attempt < n - 1 then
      .netRequest :: .sleepEv (d * 2 ^ attempt) :: transportTrace n d (attempt + 1) r
    else
      .netRequest :: transportTrace n d (attempt + 1) r

/-- The expected event trace when every attempt is answered HTTP 429:
one outbound attempt per iteration, each followed by a backoff sleep
of `retry_delay * 2 ** attempt` (even the last one). -/
def throttleTrace (d : ℚ) : Nat → Nat → List Event
  | _, 0 => []
  | attempt, r + 1 =>
    .netRequest :: .sleepEv (d * 2 ^ attempt) :: throttleTrace d (attempt + 1) r

/-- The rate limiter state of one client instance: the current wall
clock (the last `time.time()` observation) and
`self.last_request_time`.  `__init__` sets `last_request_time = 0` and
`min_interval = 1.0 / rate_limit`. -/
structure LimiterState where
  clock : ℚ
  last : ℚ

/-- `BaseAPIClient._rate_limit_wait` over explicit wall-clock time:
`d1` is the (nonnegative) time that passed since the previous clock
observation when `time.time()` is read, `overshoot` is how much longer
than requested `time.sleep` suspends (nonnegative), and `d2` the time
until the final `time.time()` that is stored into
`last_request_time`.  The outbound request is issued right after this
returns, at the recorded time. -/
def rateLimitWait (minInterval : ℚ) (s : LimiterState)
    (d1 overshoot d2 : ℚ) : LimiterState :=
  let t1 := s.clock + d1
  let elapsed := t1 - s.last
  let t2 := if elapsed < minInterval then t1 + (minInterval - elapsed) + overshoot else t1
  let t3 := t2 + d2
  ⟨t3, t3⟩

/-- The issuance times of a sequence of non-cached requests: each call
runs `_rate_limit_wait` (with its own drift triple) and issues its
request at the recorded `last_request_time`. -/
def issuanceTimes (minInterval : ℚ) : LimiterState → List (ℚ × ℚ × ℚ) → List ℚ
  | _, [] => []
  | s, d :: ds =>
    (rateLimitWait minInterval s d.1 d.2.1 d.2.2).last ::
      issuanceTimes minInterval (rateLimitWait minInterval s d.1 d.2.1 d.2.2) ds

/-! ### Helper lemmas shared by the claim theorems -/

/-- When the cache lookup misses (or caching is disabled, or the entry
is unreadable), `get` runs the retry loop from attempt 0 with the full
budget, whatever `use_cache` is. -/
theorem getModel_eq_loop (cfg : ApiConfig) (writeOk readOk : Bool)
    (cacheDir : String) (outcomes : Nat → AttemptResult) (endpoint : String)
    (params : Option PyDict) (useCache : Bool) (c : Cache)
    (hmiss : loadFromCache cfg readOk cacheDir (cacheKeyGet endpoint params) c = none) :
    getModel cfg writeOk readOk cacheDir outcomes endpoint params useCache c =
      requestLoop cfg writeOk cacheDir outcomes (cacheKeyGet endpoint params)
        0 cfg.retryAttempts c := by
  unfold getModel
  cases useCache <;> simp [hmiss]

/-- A response whose status is neither 200 nor 429 makes the loop
return `None` at once: one outbound attempt, no sleep. -/
theorem requestLoop_hardStatus (cfg : ApiConfig) (writeOk : Bool)
    (cacheDir : String) (outcomes : Nat → AttemptResult) (key : String)
    (attempt r : Nat) (c : Cache) (code : Nat) (p : Except Unit Json)
    (hout : outcomes attempt = .response code p)
    (h200 : code ≠ 200) (h429 : code ≠ 429) :
    requestLoop cfg writeOk cacheDir outcomes key attempt (r + 1) c =
      .ok ⟨none, c, [.netRequest]⟩ := by
  simp [requestLoop, tryBody, hout, h200, h429]

/-! ### C3 — non-retryable statuses short-circuit -/

/-- C3: for every response whose HTTP status is neither 200 nor 429,
`BaseAPIClient.get` returns `None` immediately after exactly one
attempt, spending no retries and performing no backoff sleep. -/
theorem C3_hard_status_single_attempt (cfg : ApiConfig) (writeOk readOk : Bool)
    (cacheDir : String) (outcomes : Nat → AttemptResult) (endpoint : String)
    (params : Option PyDict) (useCache : Bool) (c : Cache)
    (code : Nat) (p : Except Unit Json)
    (hmiss : loadFromCache cfg readOk cacheDir (cacheKeyGet endpoint params) c = none)
    (hbudget : 1 ≤ cfg.retryAttempts)
    (hout : outcomes 0 = .response code p)
    (h200 : code ≠ 200) (h429 : code ≠ 429) :
    ∃ res, getModel cfg writeOk readOk cacheDir outcomes endpoint params useCache c =
        .ok res ∧
      res.result = none ∧ requestsOf res.trace = 1 ∧ sleepsOf res.trace = [] := by
  obtain ⟨r, hr⟩ := Nat.exists_eq_add_of_le hbudget
  refine ⟨⟨none, c, [.netRequest]⟩, ?_, rfl, rfl, rfl⟩
  rw [getModel_eq_loop cfg writeOk readOk cacheDir outcomes endpoint params useCache c hmiss,
    hr, Nat.add_comm 1 r,
    requestLoop_hardStatus cfg writeOk cacheDir outcomes _ 0 r c code p hout h200 h429]

/-- C3 witness: a server answering HTTP 404 on a fresh cache with a
retry budget of 3: one attempt, absent result, no sleeps. -/
theorem C3_hard_status_single_attempt_witness :
    loadFromCache ⟨true, 3, 1⟩ true "data/cache" (cacheKeyGet "/lookup/id/g" none) [] = none ∧
    1 ≤ (3 : Nat) ∧ (404 : Nat) ≠ 200 ∧ (404 : Nat) ≠ 429 ∧
    ∃ res, getModel ⟨true, 3, 1⟩ true true "data/cache"
        (fun _ => .response 404 (.error ())) "/lookup/id/g" none true [] = .ok res ∧
      res.result = none ∧ requestsOf res.trace = 1 ∧ sleepsOf res.trace = [] :=
  ⟨rfl, by decide, by decide, by decide,
    C3_hard_status_single_attempt ⟨true, 3, 1⟩ true true "data/cache"
      (fun _ => .response 404 (.error ())) "/lookup/id/g" none true []
      404 (.error ()) rfl (by decide) rfl (by decide) (by decide)⟩

/-! ### C2 — a permanently failing (HTTP 500) server -/

/-- C2 counterexample: with a retry budget of 3 and a server that
answers every attempt with HTTP 500, `get` returns `None` after one
single attempt — not after the configured number (3) of attempts as
the claim states. -/
theorem C2_counterexample_http500_single_attempt :
    ∃ res, getModel ⟨true, 3, 1⟩ true true "data/cache"
        (fun _ => .response 500 (.error ())) "/variation/human/rs1" none true [] =
        .ok res ∧
      res.result = none ∧ requestsOf res.trace = 1 ∧ (1 : Nat) ≠ 3 :=
  ⟨⟨none, [], [.netRequest]⟩, rfl, rfl, rfl, by decide⟩

/-- C2 amended: a server that always returns HTTP 500 causes `get` to
return `None` after exactly one attempt (500 is handled like every
other non-200, non-429 status: no retry, no backoff sleep), and no
exception escapes to the caller. -/
theorem C2_amended_http500_single_attempt (cfg : ApiConfig) (writeOk readOk : Bool)
    (cacheDir : String) (outcomes : Nat → AttemptResult) (endpoint : String)
    (params : Option PyDict) (useCache : Bool) (c : Cache)
    (hmiss : loadFromCache cfg readOk cacheDir (cacheKeyGet endpoint params) c = none)
    (hbudget : 1 ≤ cfg.retryAttempts)
    (hout : ∀ i, ∃ p, outcomes i = .response 500 p) :
    ∃ res, getModel cfg writeOk readOk cacheDir outcomes endpoint params useCache c =
        .ok res ∧
      res.result = none ∧ requestsOf res.trace = 1 ∧ sleepsOf res.trace = [] := by
  obtain ⟨r, hr⟩ := Nat.exists_eq_add_of_le hbudget
  obtain ⟨p, hp⟩ := hout 0
  refine ⟨⟨none, c, [.netRequest]⟩, ?_, rfl, rfl, rfl⟩
  rw [getModel_eq_loop cfg writeOk readOk cacheDir outcomes endpoint params useCache c hmiss,
    hr, Nat.add_comm 1 r,
    requestLoop_hardStatus cfg writeOk cacheDir outcomes _ 0 r c 500 p hp
      (by decide) (by decide)]

/-- C2 amended witness: the concrete always-500 server of the
counterexample satisfies the amended claim. -/
theorem C2_amended_http500_single_attempt_witness :
    loadFromCache ⟨true, 3, 1⟩ true "data/cache"
        (cacheKeyGet "/variation/human/rs2" none) [] = none ∧
    1 ≤ (3 : Nat) ∧
    ∃ res, getModel ⟨true, 3, 1⟩ true true "data/cache"
        (fun _ => .response 500 (.error ())) "/variation/human/rs2" none true [] =
        .ok res ∧
      res.result = none ∧ requestsOf res.trace = 1 ∧ sleepsOf res.trace = [] :=
  ⟨rfl, by decide,
    C2_amended_http500_single_attempt ⟨true, 3, 1⟩ true true "data/cache"
      (fun _ => .response 500 (.error ())) "/variation/human/rs2" none true []
      rfl (by decide) (fun _ => ⟨.error (), rfl⟩)⟩

/-! ### C1 — cache hits short-circuit the network -/

/-- C1 counterexample: a cache entry exists for the signature (storing
the falsy JSON value `\x7b\x7d`), `use_cache = true`, caching is globally
enabled — yet `get` does not return the stored JSON: the
`if cached:` truthiness test fails, and an outbound network request is
issued whose body is returned instead. -/
theorem C1_counterexample_falsy_cached_entry :
    cacheFind [(cachePath "data/cache" (cacheKeyGet "/e" none), Json.obj [])]
        (cachePath "data/cache" (cacheKeyGet "/e" none)) = some (Json.obj []) ∧
    ∃ res, getModel ⟨true, 3, 1⟩ true true "data/cache"
        (fun _ => .response 200 (.ok (.str "fresh"))) "/e" none true
        [(cachePath "data/cache" (cacheKeyGet "/e" none), Json.obj [])] =
        .ok res ∧
      res.result = some (.str "fresh") ∧ Json.str "fresh" ≠ Json.obj [] ∧
      requestsOf res.trace = 1 ∧ (1 : Nat) ≠ 0 :=
  ⟨rfl, _, rfl, rfl, fun h => Json.noConfusion h, rfl, by decide⟩

/-- C1 amended: for every request signature whose cache entry exists,
is readable, and stores a truthy (nonempty) JSON value, with
`use_cache = true` and caching globally enabled, `get` (and `post`)
returns the stored JSON immediately — empty trace, so no network
request and no rate-limit wait. -/
theorem C1_amended_truthy_cache_hit (cfg : ApiConfig) (writeOk : Bool)
    (cacheDir : String) (outcomes : Nat → AttemptResult) (pyHash : String → Int)
    (endpoint : String) (data : PyDict) (params : Option PyDict) (c : Cache)
    (v w : Json)
    (hcache : cfg.cacheResponses = true)
    (hget : cacheFind c (cachePath cacheDir (cacheKeyGet endpoint params)) = some v)
    (hvt : pyTruthy v = true)
    (hpost : cacheFind c (cachePath cacheDir (cacheKeyPost pyHash endpoint data params)) = some w)
    (hwt : pyTruthy w = true) :
    getModel cfg writeOk true cacheDir outcomes endpoint params true c =
      .ok ⟨some v, c, []⟩ ∧
    postModel cfg writeOk true cacheDir pyHash outcomes endpoint data params true c =
      .ok ⟨some w, c, []⟩ := by
  constructor
  · unfold getModel loadFromCache
    simp [hcache, hget, hvt]
  · unfold postModel loadFromCache
    simp [hcache, hpost, hwt]

/-- C1 amended witness: a cache holding truthy entries for one GET and
one POST signature is returned as-is, with an empty event trace. -/
theorem C1_amended_truthy_cache_hit_witness :
    pyTruthy (.str "a") = true ∧
    getModel ⟨true, 3, 1⟩ true true "data/cache" (fun _ => .requestExn) "/e" none true
        [(cachePath "data/cache" (cacheKeyGet "/e" none), Json.str "a"),
         (cachePath "data/cache" (cacheKeyPost (fun _ => 7) "/e" [] none), Json.str "b")] =
      .ok ⟨some (.str "a"),
        [(cachePath "data/cache" (cacheKeyGet "/e" none), Json.str "a"),
         (cachePath "data/cache" (cacheKeyPost (fun _ => 7) "/e" [] none), Json.str "b")], []⟩ ∧
    postModel ⟨true, 3, 1⟩ true true "data/cache" (fun _ => 7) (fun _ => .requestExn)
        "/e" [] none true
        [(cachePath "data/cache" (cacheKeyGet "/e" none), Json.str "a"),
         (cachePath "data/cache" (cacheKeyPost (fun _ => 7) "/e" [] none), Json.str "b")] =
      .ok ⟨some (.str "b"),
        [(cachePath "data/cache" (cacheKeyGet "/e" none), Json.str "a"),
         (cachePath "data/cache" (cacheKeyPost (fun _ => 7) "/e" [] none), Json.str "b")], []⟩ :=
  ⟨rfl,
    C1_amended_truthy_cache_hit ⟨true, 3, 1⟩ true "data/cache" (fun _ => .requestExn)
      (fun _ => 7) "/e" [] none
      [(cachePath "data/cache" (cacheKeyGet "/e" none), Json.str "a"),
       (cachePath "data/cache" (cacheKeyPost (fun _ => 7) "/e" [] none), Json.str "b")]
      (.str "a") (.str "b") rfl (by rfl) rfl (by rfl) rfl⟩

/-! ### C9 — failed cache writes are swallowed -/

/-- C9: when persisting a successful response fails
(`writeOk = false`, the source catches and logs the exception), the
call still returns the parsed JSON body of the 200 response and the
cache is left exactly as it was — no entry is created and the
in-flight request is not aborted. -/
theorem C9_cache_write_failure_swallowed (cfg : ApiConfig) (readOk : Bool)
    (cacheDir : String) (outcomes : Nat → AttemptResult) (endpoint : String)
    (params : Option PyDict) (useCache : Bool) (c : Cache) (body : Json)
    (hmiss : loadFromCache cfg readOk cacheDir (cacheKeyGet endpoint params) c = none)
    (hbudget : 1 ≤ cfg.retryAttempts)
    (hout : outcomes 0 = .response 200 (.ok body)) :
    getModel cfg false readOk cacheDir outcomes endpoint params useCache c =
      .ok ⟨some body, c, [.netRequest]⟩ := by
  obtain ⟨r, hr⟩ := Nat.exists_eq_add_of_le hbudget
  rw [getModel_eq_loop cfg false readOk cacheDir outcomes endpoint params useCache c hmiss,
    hr, Nat.add_comm 1 r]
  simp [requestLoop, tryBody, hout, saveToCache]

/-- C9 witness: a 200 response whose cache write fails is still
returned, and the (empty) cache stays empty. -/
theorem C9_cache_write_failure_swallowed_witness :
    loadFromCache ⟨true, 3, 1⟩ true "data/cache" (cacheKeyGet "/e" none) [] = none ∧
    1 ≤ (3 : Nat) ∧
    getModel ⟨true, 3, 1⟩ false true "data/cache"
        (fun _ => .response 200 (.ok (.str "body"))) "/e" none true [] =
      .ok ⟨some (.str "body"), [], [.netRequest]⟩ :=
  ⟨rfl, by decide,
    C9_cache_write_failure_swallowed ⟨true, 3, 1⟩ true "data/cache"
      (fun _ => .response 200 (.ok (.str "body"))) "/e" none true [] (.str "body")
      rfl (by decide) rfl⟩

/-! ### C10 — cache writes happen even with `use_cache = false` -/

/-- C10 counterexample: with `use_cache = false` a successful 200
response whose body is the falsy JSON `\x7b\x7d` is indeed written to
the cache — but the subsequent `use_cache = true` call with the same
signature does NOT return the stored body without a network request:
the truthiness test rejects the stored `\x7b\x7d` and a second network
request is issued. -/
theorem C10_counterexample_falsy_body_refetches :
    (getModel ⟨true, 3, 1⟩ true true "data/cache"
        (fun _ => .response 200 (.ok (.obj []))) "/e" none false [] =
      .ok ⟨some (.obj []),
        [(cachePath "data/cache" (cacheKeyGet "/e" none), Json.obj [])],
        [.netRequest]⟩) ∧
    ∃ res2, getModel ⟨true, 3, 1⟩ true true "data/cache"
        (fun _ => .response 200 (.ok (.str "second"))) "/e" none true
        [(cachePath "data/cache" (cacheKeyGet "/e" none), Json.obj [])] =
        .ok res2 ∧
      requestsOf res2.trace = 1 ∧ (1 : Nat) ≠ 0 :=
  ⟨rfl, _, rfl, rfl, by decide⟩

/-- C10 amended: with `use_cache = false` and caching globally
enabled, a successful HTTP 200 response with a truthy (nonempty) body
is still written to the cache, and a subsequent `use_cache = true`
call with the same signature returns the stored body with an empty
trace — no network request — although no prior call passed
`use_cache = true`. -/
theorem C10_amended_writes_despite_use_cache_false (cfg : ApiConfig)
    (cacheDir : String) (outcomes1 outcomes2 : Nat → AttemptResult)
    (endpoint : String) (params : Option PyDict) (c : Cache) (body : Json)
    (hcache : cfg.cacheResponses = true)
    (hbudget : 1 ≤ cfg.retryAttempts)
    (hout : outcomes1 0 = .response 200 (.ok body))
    (htruthy : pyTruthy body = true) :
    ∃ c2, getModel cfg true true cacheDir outcomes1 endpoint params false c =
        .ok ⟨some body, c2, [.netRequest]⟩ ∧
      cacheFind c2 (cachePath cacheDir (cacheKeyGet endpoint params)) = some body ∧
      getModel cfg true true cacheDir outcomes2 endpoint params true c2 =
        .ok ⟨some body, c2, []⟩ := by
  obtain ⟨r, hr⟩ := Nat.exists_eq_add_of_le hbudget
  refine ⟨cacheStore c (cachePath cacheDir (cacheKeyGet endpoint params)) body,
    ?_, ?_, ?_⟩
  · unfold getModel
    rw [hr, Nat.add_comm 1 r]
    simp [requestLoop, tryBody, hout, saveToCache, hcache]
  · simp [cacheStore, cacheFind]
  · unfold getModel loadFromCache
    simp [hcache, cacheStore, cacheFind, htruthy]

/-- C10 amended witness: a truthy 200 body fetched with
`use_cache = false` is served from the cache by the following
`use_cache = true` call, with no network request. -/
theorem C10_amended_writes_despite_use_cache_false_witness :
    pyTruthy (.str "v") = true ∧ 1 ≤ (3 : Nat) ∧
    ∃ c2, getModel ⟨true, 3, 1⟩ true true "data/cache"
        (fun _ => .response 200 (.ok (.str "v"))) "/e" none false [] =
        .ok ⟨some (.str "v"), c2, [.netRequest]⟩ ∧
      cacheFind c2 (cachePath "data/cache" (cacheKeyGet "/e" none)) = some (.str "v") ∧
      getModel ⟨true, 3, 1⟩ true true "data/cache"
          (fun _ => .requestExn) "/e" none true c2 =
        .ok ⟨some (.str "v"), c2, []⟩ :=
  ⟨rfl, by decide,
    C10_amended_writes_despite_use_cache_false ⟨true, 3, 1⟩ "data/cache"
      (fun _ => .response 200 (.ok (.str "v"))) (fun _ => .requestExn)
      "/e" none [] (.str "v") rfl (by decide) rfl rfl⟩

/-! ### C8 — no exception escapes `get`/`post` -/

/-- Every exception the `try:` body of an attempt can raise is a
`requests.exceptions.RequestException` (transport failures, and body
parsing via `JSONDecodeError`, its subclass), i.e. is of the class
the `except` clause catches. -/
theorem tryBody_raised_class (cfg : ApiConfig) (writeOk : Bool) (cacheDir : String)
    (key : String) (c : Cache) (o : AttemptResult) (e : PyExn)
    (h : tryBody cfg writeOk cacheDir key c o = .raised e) :
    e = PyExn.requestException := by
  cases o with
  | response code parse =>
    simp only [tryBody] at h
    split at h
    · cases parse with
      | ok b => cases h
      | error u => cases h; rfl
    · split at h
      · cases h
      · cases h
  | requestExn =>
    simp only [tryBody] at h
    cases h
    rfl

/-- The retry loop always terminates with a value (`Except.ok`): the
only exceptions raised inside it are caught by its `except` clause. -/
theorem requestLoop_isOk (cfg : ApiConfig) (writeOk : Bool) (cacheDir : String)
    (outcomes : Nat → AttemptResult) (key : String) :
    ∀ (r attempt : Nat) (c : Cache),
      ∃ res, requestLoop cfg writeOk cacheDir outcomes key attempt r c = .ok res := by
  intro r
  induction r with
  | zero => exact fun attempt c => ⟨_, rfl⟩
  | succ m ih =>
    intro attempt c
    simp only [requestLoop]
    cases hto : tryBody cfg writeOk cacheDir key c (outcomes attempt) with
    | ret v c2 => exact ⟨_, rfl⟩
    | sleep429 =>
      obtain ⟨res, hres⟩ := ih (attempt + 1) c
      rw [hres]
      exact ⟨_, rfl⟩
    | raised e =>
      have he := tryBody_raised_class cfg writeOk cacheDir key c (outcomes attempt) e hto
      subst he
      obtain ⟨res, hres⟩ := ih (attempt + 1) c
      by_cases hlt : attempt < cfg.retryAttempts - 1
      · simp only [if_pos rfl, if_pos hlt, hres]
        exact ⟨_, rfl⟩
      · simp only [if_pos rfl, if_neg hlt, hres]
        exact ⟨_, rfl⟩

/-- C8: for every input — any server behaviour, any cache state, any
configuration — `BaseAPIClient.get` and `post` never let an exception
escape to the caller: each call resolves to `Except.ok`, carrying
either a JSON value or the explicit absent result `none`. -/
theorem C8_no_fault_escapes (cfg : ApiConfig) (writeOk readOk : Bool)
    (cacheDir : String) (pyHash : String → Int) (outcomes : Nat → AttemptResult)
    (endpoint : String) (data : PyDict) (params : Option PyDict)
    (useCache : Bool) (c : Cache) :
    (∃ res, getModel cfg writeOk readOk cacheDir outcomes endpoint params useCache c =
      .ok res) ∧
    (∃ res, postModel cfg writeOk readOk cacheDir pyHash outcomes endpoint data params
      useCache c = .ok res) := by
  constructor
  · unfold getModel
    dsimp only
    split
    · split
      · split
        · exact ⟨_, rfl⟩
        · exact requestLoop_isOk cfg writeOk cacheDir outcomes _ cfg.retryAttempts 0 c
      · exact requestLoop_isOk cfg writeOk cacheDir outcomes _ cfg.retryAttempts 0 c
    · exact requestLoop_isOk cfg writeOk cacheDir outcomes _ cfg.retryAttempts 0 c
  · unfold postModel
    dsimp only
    split
    · split
      · split
        · exact ⟨_, rfl⟩
        · exact requestLoop_isOk cfg writeOk cacheDir outcomes _ cfg.retryAttempts 0 c
      · exact requestLoop_isOk cfg writeOk cacheDir outcomes _ cfg.retryAttempts 0 c
    · exact requestLoop_isOk cfg writeOk cacheDir outcomes _ cfg.retryAttempts 0 c

/-! ### C7 — exponential backoff within the attempt budget -/

/-- On persistent transport failures the loop returns `None`, leaves
the cache alone, and produces exactly the expected trace. -/
theorem requestLoop_transport (cfg : ApiConfig) (writeOk : Bool) (cacheDir : String)
    (outcomes : Nat → AttemptResult) (key : String)
    (hout : ∀ i, outcomes i = .requestExn) :
    ∀ (r attempt : Nat) (c : Cache),
      requestLoop cfg writeOk cacheDir outcomes key attempt r c =
        .ok ⟨none, c, transportTrace cfg.retryAttempts cfg.retryDelay attempt r⟩ := by
  intro r
  induction r with
  | zero => intro attempt c; rfl
  | succ m ih =>
    intro attempt c
    simp only [requestLoop, hout attempt, tryBody, if_pos rfl]
    by_cases hlt : attempt < cfg.retryAttempts - 1
    · simp only [if_pos hlt, ih (attempt + 1) c, Except.map, transportTrace, if_true]
    · simp only [if_neg hlt, ih (attempt + 1) c, Except.map, transportTrace, if_true]

/-- On persistent HTTP 429 the loop returns `None`, leaves the cache
alone, and sleeps after every attempt. -/
theorem requestLoop_throttle (cfg : ApiConfig) (writeOk : Bool) (cacheDir : String)
    (outcomes : Nat → AttemptResult) (key : String)
    (hout : ∀ i, ∃ p, outcomes i = .response 429 p) :
    ∀ (r attempt : Nat) (c : Cache),
      requestLoop cfg writeOk cacheDir outcomes key attempt r c =
        .ok ⟨none, c, throttleTrace cfg.retryDelay attempt r⟩ := by
  intro r
  induction r with
  | zero => intro attempt c; rfl
  | succ m ih =>
    intro attempt c
    obtain ⟨p, hp⟩ := hout attempt
    simp only [requestLoop, hp, tryBody]
    norm_num
    simp only [ih (attempt + 1) c, Except.map, throttleTrace]

/-- The sleeps of a full-budget transport-failure trace starting at
`attempt` (with `attempt + r = n`): `retry_delay * 2 ** i` for the
attempts `attempt, attempt + 1, ...` except the last one. -/
theorem sleepsOf_transportTrace (n : Nat) (d : ℚ) :
    ∀ (r attempt : Nat), attempt + r = n →
      sleepsOf (transportTrace n d attempt r) =
        (List.range (r - 1)).map (fun i => d * 2 ^ (attempt + i)) := by
  intro r
  induction r with
  | zero => intro attempt h; rfl
  | succ m ih =>
    intro attempt h
    by_cases hm : m = 0
    · subst hm
      have hlt : ¬ attempt < n - 1 := by omega
      simp [transportTrace, hlt, sleepsOf]
    · have hlt : attempt < n - 1 := by omega
      simp only [transportTrace, if_pos hlt]
      have hrec := ih (attempt + 1) (by omega)
      simp only [sleepsOf, List.filterMap_cons] at hrec ⊢
      rw [hrec]
      obtain ⟨k, rfl⟩ : ∃ k, m = k + 1 := ⟨m - 1, by omega⟩
      simp only [Nat.add_sub_cancel]
      rw [List.range_succ_eq_map]
      simp only [List.map_cons, List.map_map, Nat.add_zero, List.cons.injEq,
        true_and]
      apply List.map_congr_left
      intro i _
      simp only [Function.comp, Nat.succ_eq_add_one]
      have hx : attempt + 1 + i = attempt + (i + 1) := by omega
      rw [hx]

/-- The sleeps of a throttled (HTTP 429) trace: `retry_delay * 2 ** i`
for every attempt. -/
theorem sleepsOf_throttleTrace (d : ℚ) :
    ∀ (r attempt : Nat),
      sleepsOf (throttleTrace d attempt r) =
        (List.range r).map (fun i => d * 2 ^ (attempt + i)) := by
  intro r
  induction r with
  | zero => intro attempt; rfl
  | succ m ih =>
    intro attempt
    simp only [throttleTrace, sleepsOf, List.filterMap_cons] at ih ⊢
    rw [ih (attempt + 1), List.range_succ_eq_map]
    simp only [List.map_cons, List.map_map, Nat.add_zero, List.cons.injEq,
      true_and]
    apply List.map_congr_left
    intro i _
    simp only [Function.comp, Nat.succ_eq_add_one]
    have hx : attempt + 1 + i = attempt + (i + 1) := by omega
    rw [hx]

/-- Prepending an outbound attempt raises the request count by one. -/
theorem requestsOf_cons_net (tr : List Event) :
    requestsOf (.netRequest :: tr) = requestsOf tr + 1 := by
  simp [requestsOf, List.countP_cons]

/-- Prepending a sleep leaves the request count unchanged. -/
theorem requestsOf_cons_sleep (d : ℚ) (tr : List Event) :
    requestsOf (.sleepEv d :: tr) = requestsOf tr := by
  simp [requestsOf, List.countP_cons]

/-- A transport-failure trace contains one outbound attempt per loop
iteration. -/
theorem requestsOf_transportTrace (n : Nat) (d : ℚ) :
    ∀ (r attempt : Nat), requestsOf (transportTrace n d attempt r) = r := by
  intro r
  induction r with
  | zero => intro attempt; rfl
  | succ m ih =>
    intro attempt
    by_cases hlt : attempt < n - 1
    · rw [transportTrace, if_pos hlt, requestsOf_cons_net, requestsOf_cons_sleep,
        ih (attempt + 1)]
    · rw [transportTrace, if_neg hlt, requestsOf_cons_net, ih (attempt + 1)]

/-- A throttled trace contains one outbound attempt per loop iteration. -/
theorem requestsOf_throttleTrace (d : ℚ) :
    ∀ (r attempt : Nat), requestsOf (throttleTrace d attempt r) = r := by
  intro r
  induction r with
  | zero => intro attempt; rfl
  | succ m ih =>
    intro attempt
    rw [throttleTrace, requestsOf_cons_net, requestsOf_cons_sleep, ih (attempt + 1)]

/-- C7: on repeated transient failures, the Kth backoff sleep equals
`retry_delay * 2 ** K` with K counted from 0 (so the delay before the
Kth retry is `retry_delay * 2 ** (K - 1)`), and exactly the configured
attempt budget is spent — never more.  Both transient kinds are
covered: persistent transport errors (one sleep after every attempt
but the last) and persistent HTTP 429 (one sleep after every attempt). -/
theorem C7_backoff_growth (cfg : ApiConfig) (writeOk readOk : Bool)
    (cacheDir : String) (outcomesT outcomesR : Nat → AttemptResult)
    (endpoint : String) (params : Option PyDict) (useCache : Bool) (c : Cache)
    (hmiss : loadFromCache cfg readOk cacheDir (cacheKeyGet endpoint params) c = none)
    (hT : ∀ i, outcomesT i = .requestExn)
    (hR : ∀ i, ∃ p, outcomesR i = .response 429 p) :
    (∃ res, getModel cfg writeOk readOk cacheDir outcomesT endpoint params useCache c =
        .ok res ∧
      res.result = none ∧ requestsOf res.trace = cfg.retryAttempts ∧
      sleepsOf res.trace =
        (List.range (cfg.retryAttempts - 1)).map (fun K => cfg.retryDelay * 2 ^ K)) ∧
    (∃ res, getModel cfg writeOk readOk cacheDir outcomesR endpoint params useCache c =
        .ok res ∧
      res.result = none ∧ requestsOf res.trace = cfg.retryAttempts ∧
      sleepsOf res.trace =
        (List.range cfg.retryAttempts).map (fun K => cfg.retryDelay * 2 ^ K)) := by
  constructor
  · refine ⟨⟨none, c, transportTrace cfg.retryAttempts cfg.retryDelay 0 cfg.retryAttempts⟩,
      ?_, rfl, requestsOf_transportTrace cfg.retryAttempts cfg.retryDelay cfg.retryAttempts 0, ?_⟩
    · rw [getModel_eq_loop cfg writeOk readOk cacheDir outcomesT endpoint params useCache c hmiss,
        requestLoop_transport cfg writeOk cacheDir outcomesT _ hT cfg.retryAttempts 0 c]
    · rw [sleepsOf_transportTrace cfg.retryAttempts cfg.retryDelay cfg.retryAttempts 0
        (by omega)]
      simp
  · refine ⟨⟨none, c, throttleTrace cfg.retryDelay 0 cfg.retryAttempts⟩,
      ?_, rfl, requestsOf_throttleTrace cfg.retryDelay cfg.retryAttempts 0, ?_⟩
    · rw [getModel_eq_loop cfg writeOk readOk cacheDir outcomesR endpoint params useCache c hmiss,
        requestLoop_throttle cfg writeOk cacheDir outcomesR _ hR cfg.retryAttempts 0 c]
    · rw [sleepsOf_throttleTrace cfg.retryDelay cfg.retryAttempts 0]
      simp

/-- C7 witness: with a retry budget of 3 and base delay 1, persistent
transport failures sleep 1 s then 2 s across exactly 3 attempts, and
persistent HTTP 429 sleeps 1 s, 2 s, 4 s across exactly 3 attempts. -/
theorem C7_backoff_growth_witness :
    (∃ res, getModel ⟨true, 3, 1⟩ true true "data/cache" (fun _ => .requestExn)
        "/e" none true [] = .ok res ∧
      res.result = none ∧ requestsOf res.trace = 3 ∧
      sleepsOf res.trace = (List.range 2).map (fun K => (1 : ℚ) * 2 ^ K)) ∧
    (∃ res, getModel ⟨true, 3, 1⟩ true true "data/cache"
        (fun _ => .response 429 (.error ())) "/e" none true [] = .ok res ∧
      res.result = none ∧ requestsOf res.trace = 3 ∧
      sleepsOf res.trace = (List.range 3).map (fun K => (1 : ℚ) * 2 ^ K)) :=
  C7_backoff_growth ⟨true, 3, 1⟩ true true "data/cache" (fun _ => .requestExn)
    (fun _ => .response 429 (.error ())) "/e" none true [] rfl (fun _ => rfl)
    (fun _ => ⟨.error (), rfl⟩)

/-! ### C6 — rate-limiter minimum gap -/

/-- One wait advances `last_request_time` by at least the minimum
interval, whatever the drifts. -/
theorem rateLimitWait_last_ge (m : ℚ) (s : LimiterState) (d1 o d2 : ℚ)
    (hs : s.last ≤ s.clock) (h1 : 0 ≤ d1) (ho : 0 ≤ o) (h2 : 0 ≤ d2) :
    s.last + m ≤ (rateLimitWait m s d1 o d2).last := by
  unfold rateLimitWait
  dsimp only
  split
  · linarith
  · next hc => linarith [not_lt.mp hc]

/-- Consecutive issuance times are at least `minInterval` apart, and
the first one is at least `minInterval` after the recorded last
request time of the starting state. -/
theorem issuanceTimes_chain (m : ℚ) :
    ∀ (ds : List (ℚ × ℚ × ℚ)) (s : LimiterState), s.last ≤ s.clock →
      (∀ t ∈ ds, 0 ≤ t.1 ∧ 0 ≤ t.2.1 ∧ 0 ≤ t.2.2) →
      List.Chain' (fun a b => a + m ≤ b) (issuanceTimes m s ds) ∧
      ∀ a ∈ (issuanceTimes m s ds).head?, s.last + m ≤ a := by
  intro ds
  induction ds with
  | nil =>
    intro s hs hd
    exact ⟨List.chain'_nil, by simp [issuanceTimes]⟩
  | cons d ds ih =>
    intro s hs hd
    obtain ⟨hd1, ho, hd2⟩ := hd d (List.mem_cons_self d ds)
    have hstep := rateLimitWait_last_ge m s d.1 d.2.1 d.2.2 hs hd1 ho hd2
    have hinv : (rateLimitWait m s d.1 d.2.1 d.2.2).last ≤
        (rateLimitWait m s d.1 d.2.1 d.2.2).clock := le_refl _
    obtain ⟨hchain, hhead⟩ := ih (rateLimitWait m s d.1 d.2.1 d.2.2) hinv
      (fun t ht => hd t (List.mem_cons_of_mem d ht))
    constructor
    · rw [issuanceTimes]
      exact List.chain'_cons'.mpr ⟨fun y hy => le_trans (by linarith) (hhead y hy), hchain⟩
    · intro a ha
      rw [issuanceTimes] at ha
      simp only [List.head?_cons, Option.mem_def, Option.some.injEq] at ha
      rw [← ha]
      exact hstep

/-- A chain with gaps of at least `m` spans at least
`(length - 1) * m` from its first element to its last. -/
theorem chain_span (m : ℚ) (hm : 0 ≤ m) :
    ∀ (l : List ℚ), List.Chain' (fun a b => a + m ≤ b) l →
      ∀ a b, l.head? = some a → l.getLast? = some b →
        a + ((l.length - 1 : ℕ) : ℚ) * m ≤ b := by
  intro l
  induction l with
  | nil => intro _ a b ha _; cases ha
  | cons x t ih =>
    intro hchain a b ha hb
    cases t with
    | nil =>
      simp only [List.head?_cons, Option.some.injEq] at ha
      simp only [List.getLast?_singleton, Option.some.injEq] at hb
      subst ha
      subst hb
      simp
    | cons y t2 =>
      have hxy : x + m ≤ y := (List.chain'_cons.mp hchain).1
      have hchain2 := (List.chain'_cons.mp hchain).2
      have hb2 : (y :: t2).getLast? = some b := by
        rw [← hb, List.getLast?_cons_cons]
      have hspan := ih hchain2 y b rfl hb2
      simp only [List.head?_cons, Option.some.injEq] at ha
      subst ha
      simp only [List.length_cons, Nat.add_sub_cancel] at hspan ⊢
      push_cast at hspan ⊢
      nlinarith [hspan, hxy]

/-- C6: for a client configured at `R` requests per second
(`min_interval = 1 / R`), the recorded issuance times of any sequence
of consecutive non-cached requests from that instance are each at
least `1 / R` apart, and the span from the first issuance to the last
is at least `(M - 1) / R` where `M` is the number of requests. -/
theorem C6_rate_limiter_gap (R : ℚ) (hR : 0 < R) (s : LimiterState)
    (hs : s.last ≤ s.clock) (ds : List (ℚ × ℚ × ℚ))
    (hd : ∀ t ∈ ds, 0 ≤ t.1 ∧ 0 ≤ t.2.1 ∧ 0 ≤ t.2.2) :
    List.Chain' (fun a b => a + 1 / R ≤ b) (issuanceTimes (1 / R) s ds) ∧
    ∀ a b, (issuanceTimes (1 / R) s ds).head? = some a →
      (issuanceTimes (1 / R) s ds).getLast? = some b →
      a + (((issuanceTimes (1 / R) s ds).length - 1 : ℕ) : ℚ) * (1 / R) ≤ b := by
  have hchain := (issuanceTimes_chain (1 / R) ds s hs hd).1
  exact ⟨hchain, fun a b ha hb =>
    chain_span (1 / R) (by positivity) (issuanceTimes (1 / R) s ds) hchain a b ha hb⟩

/-- C6 witness: three consecutive non-cached requests at 10 requests
per second, started from a fresh client (`last_request_time = 0`,
clock 100): consecutive issuance times are at least 0.1 s apart and
the whole span is at least 0.2 s. -/
theorem C6_rate_limiter_gap_witness :
    List.Chain' (fun a b => a + 1 / 10 ≤ b)
      (issuanceTimes (1 / 10) ⟨100, 0⟩ [(0, 0, 0), (0, 0, 0), (5, 0, 0)]) ∧
    ∀ a b, (issuanceTimes (1 / 10) ⟨100, 0⟩ [(0, 0, 0), (0, 0, 0), (5, 0, 0)]).head? = some a →
      (issuanceTimes (1 / 10) ⟨100, 0⟩ [(0, 0, 0), (0, 0, 0), (5, 0, 0)]).getLast? = some b →
      a + (((issuanceTimes (1 / 10) ⟨100, 0⟩ [(0, 0, 0), (0, 0, 0), (5, 0, 0)]).length - 1 : ℕ) : ℚ)
        * (1 / 10) ≤ b :=
  C6_rate_limiter_gap 10 (by norm_num) ⟨100, 0⟩ (by norm_num)
    [(0, 0, 0), (0, 0, 0), (5, 0, 0)] (by decide)

/-! ### C4 — the POST cache key is not stable across process runs -/

/-- C4: the POST cache key embeds `hash(str(data))`, where the
built-in `hash` of a `str` is salted per process (`PYTHONHASHSEED`).
Evaluated at the failing input: the identical POST signature
(endpoint `/vep/human/region`, same body, no params) yields different
cache keys under two process runs whose string-hash functions differ,
and the entry persisted under the first key is not found when looked
up with the second — cross-run memoization fails, although the claim
(and the spec) requires the key to be a function of the signature
alone. -/
theorem C4_post_key_depends_on_hash_seed :
    cacheKeyPost (fun _ => 0) "/vep/human/region"
        [("variants", .str "1 100 100 A/G +")] none ≠
      cacheKeyPost (fun _ => 1) "/vep/human/region"
        [("variants", .str "1 100 100 A/G +")] none ∧
    cacheFind
      [(cachePath "data/cache"
          (cacheKeyPost (fun _ => 0) "/vep/human/region"
            [("variants", .str "1 100 100 A/G +")] none), Json.str "resp")]
      (cachePath "data/cache"
        (cacheKeyPost (fun _ => 1) "/vep/human/region"
          [("variants", .str "1 100 100 A/G +")] none)) = none := by
  exact ⟨by decide, rfl⟩

/-! ### C5 — the GET cache key is order-sensitive, not sorted -/

/-- C5 counterexample: two GET parameter mappings holding exactly the
same key-value pairs (a permutation of each other), built in different
insertion orders, produce different cache keys: `str(params)` shows
insertion order and the code never sorts. -/
theorem C5_counterexample_param_order :
    List.Perm [("a", PyVal.int 1), ("b", PyVal.int 2)]
      [("b", PyVal.int 2), ("a", PyVal.int 1)] ∧
    cacheKeyGet "/overlap" (some [("a", PyVal.int 1), ("b", PyVal.int 2)]) ≠
      cacheKeyGet "/overlap" (some [("b", PyVal.int 2), ("a", PyVal.int 1)]) := by
  exact ⟨List.Perm.swap ("b", PyVal.int 2) ("a", PyVal.int 1) [], by decide⟩

/-- C5 amended: the GET cache key is `endpoint + "_" + str(params)`
with the parameters in insertion order (no method component, no
sorting): two GET calls compute the identical cache key whenever their
endpoint and the Python string of their parameter mapping — hence in
particular the same pairs in the same insertion order — agree. -/
theorem C5_amended_key_from_param_string (endpoint : String)
    (p1 p2 : Option PyDict) (h : pyStrOptDict p1 = pyStrOptDict p2) :
    cacheKeyGet endpoint p1 = cacheKeyGet endpoint p2 := by
  unfold cacheKeyGet
  rw [h]

/-- C5 amended witness: two identically-built mappings share the key. -/
theorem C5_amended_key_from_param_string_witness :
    pyStrOptDict (some [("feature", PyVal.str "variation")]) =
      pyStrOptDict (some [("feature", PyVal.str "variation")]) ∧
    cacheKeyGet "/overlap/region/human/1:1-100" (some [("feature", PyVal.str "variation")]) =
      cacheKeyGet "/overlap/region/human/1:1-100" (some [("feature", PyVal.str "variation")]) :=
  ⟨rfl, C5_amended_key_from_param_string "/overlap/region/human/1:1-100"
    (some [("feature", PyVal.str "variation")])
    (some [("feature", PyVal.str "variation")]) rfl⟩
